import Mathlib

/-!
Verification of the client-side session/state machine of the Healthcare
Translation Web App (client/src/App.jsx, `Transcriber` component) and of the
single server route (server/index.js, quoted in the repository README).

The React state of `Transcriber` is embedded as `TranscriberState`; each
event handler (`rec.onstart`, `rec.onend`, `rec.onresult`, `rec.onerror`),
the debounced translate effect, `translateText`, the start branch of
`toggleListening`, `speak` and `clearAll` becomes an explicit
state-transition function.  JavaScript truthiness on strings (the empty
string is falsy) is made explicit wherever the source branches on a string
value, and the JavaScript string builtins `trim` and `startsWith` are
embedded as executable functions on the underlying character list.
-/

namespace Healthcare

/-- Embedding of JavaScript whitespace as tested by `String.prototype.trim`
(restricted to the ASCII whitespace characters relevant here). -/
def jsIsWhitespace (c : Char) : Bool :=
  c = ' ' || c = '\t' || c = '\n' || c = '\r' || c = '\x0b' || c = '\x0c'

/-- Embedding of the JavaScript builtin `s.trim()`: drop whitespace from both
ends of the string. -/
def jsTrim (s : String) : String :=
  ⟨((s.data.dropWhile jsIsWhitespace).reverse.dropWhile jsIsWhitespace).reverse⟩

/-- Embedding of the JavaScript builtin `s.startsWith(p)`. -/
def jsStartsWith (s p : String) : Bool :=
  s.data.take p.data.length == p.data

/-- The React state of the `Transcriber` component: the `useState` hooks
`listening`, `original`, `translated`, `inputLang`, `outputLang`, `status`,
plus the mutable ref `lastResultRef.current`. -/
structure TranscriberState where
  listening : Bool
  original : String
  translated : String
  inputLang : String
  outputLang : String
  status : String
  lastResult : String
  deriving Repr, DecidableEq

/-- The initial state of the component, from the `useState` initialisers. -/
def initState : TranscriberState :=
  { listening := false
    original := ""
    translated := ""
    inputLang := "en-US"
    outputLang := "bn"
    status := "idle"
    lastResult := "" }

/-- An operation performed on the platform recognition session object. -/
inductive SessionOp where
  | abortOp
  | stopOp
  deriving Repr, DecidableEq

/-- Embedding of `rec.onstart`: sets `listening` to true and `status` to
`"listening"`. -/
def onstartStep (s : TranscriberState) : TranscriberState :=
  { s with listening := true, status := "listening" }

/-- Embedding of `rec.onend`: sets `listening` to false and maps the previous
status with `prev => (prev === "network-error" ? prev : "idle")`. -/
def onendStep (s : TranscriberState) : TranscriberState :=
  { s with listening := false
           status := if s.status = "network-error" then s.status else "idle" }

/-- Embedding of `rec.onerror`: branches on the error kind string; `network`
and `not-allowed` set their dedicated statuses and call `rec.abort()`; every
other kind sets the generic `error` status and performs no session call. -/
def onerrorStep (s : TranscriberState) (err : String) :
    TranscriberState × Option SessionOp :=
  if err = "network" then
    ({ s with status := "network-error" }, some .abortOp)
  else if err = "not-allowed" then
    ({ s with status := "permission-denied" }, some .abortOp)
  else
    ({ s with status := "error" }, none)

/-- One entry of a recognition event result list: the `isFinal` flag and the
transcript text of alternative 0. -/
structure RecResult where
  isFinal : Bool
  transcript : String
  deriving Repr, DecidableEq

/-- The `final` accumulator of `rec.onresult`: final results contribute
`transcript + " "`, in order. -/
def finalOfEvent (results : List RecResult) : String :=
  results.foldl (fun acc r => if r.isFinal then acc ++ r.transcript ++ " " else acc) ""

/-- The `interim` accumulator of `rec.onresult`: non-final results contribute
`transcript`, in order. -/
def interimOfEvent (results : List RecResult) : String :=
  results.foldl (fun acc r => if r.isFinal then acc else acc ++ r.transcript) ""

/-- Embedding of `rec.onresult`: computes
`combined = (original + " " + final + " " + interim).trim()` and stores it in
both `lastResultRef.current` and `original`.  The handler is created inside
`createRecognition`, so the `original` it reads is the closure-captured
value of the render in which the recognizer was created — frozen for the
lifetime of the recognizer (the empty string on mount), not the live
component state; it is passed here as `capturedOriginal`. -/
def onresultStep (capturedOriginal : String) (s : TranscriberState)
    (results : List RecResult) : TranscriberState :=
  let combined :=
    jsTrim (capturedOriginal ++ " " ++ finalOfEvent results ++ " " ++ interimOfEvent results)
  { s with lastResult := combined, original := combined }

/-- Running the `rec.onresult` handler of one recognizer over a sequence of
recognition events in arrival order: the live state is threaded, while the
closure-captured `original` stays the same frozen value for every event. -/
def processEvents (capturedOriginal : String) (s : TranscriberState)
    (evs : List (List RecResult)) : TranscriberState :=
  evs.foldl (onresultStep capturedOriginal) s

/-- The intended finalized transcript as the specification states it: the
concatenation of all final-result texts of all events, in arrival order,
with the same single-space separators and final trim the handler uses.
Written from the specification sentence, to be compared with
`processEvents`. -/
def specFinalTranscript (evs : List (List RecResult)) : String :=
  jsTrim (evs.foldl (fun acc results => acc ++ finalOfEvent results) "")

/-- The pending debounce timer of the translate effect: `none` when no timer
is armed, otherwise the (transcript, output-language) pair captured by the
armed `setTimeout` callback. -/
structure DebounceState where
  pending : Option (String × String)
  deriving Repr, DecidableEq

/-- Embedding of one run of the debounce effect on a change of `original` or
`outputLang`: the cleanup clears any previously armed timer (`clearTimeout`)
and a fresh one-second timer is armed capturing the current pair. -/
def debounceChange (_ : DebounceState) (text lang : String) : DebounceState :=
  { pending := some (text, lang) }

/-- Embedding of the armed timer firing: the callback dispatches
`translateText(original)` only when `original.trim().length > 0`; the result
is the list of dispatched (transcript, output-language) pairs. -/
def debounceFire (s : DebounceState) : List (String × String) :=
  match s.pending with
  | none => []
  | some c => if (jsTrim c.1).length > 0 then [c] else []

/-- A burst of changes applied in order, each re-arming the debounce timer
before the previous one could fire. -/
def debounceBurst (s : DebounceState) (changes : List (String × String)) : DebounceState :=
  changes.foldl (fun st c => debounceChange st c.1 c.2) s

/-- The outcome of `fetch` plus `resp.json()` inside `translateText`:
either a parsed JSON body whose `translated` field may be absent
(`ok none`) or present with a string value, or a thrown transport/parse
failure (`fail`). -/
inductive FetchOutcome where
  | ok (translated : Option String)
  | fail
  deriving Repr, DecidableEq

/-- The placeholder published when the parsed body has no truthy
`translated` field. -/
def quotaMessage : String :=
  "Translation failed, You exceeded your current quota, please check your plan and billing details."

/-- The placeholder published when the fetch or JSON parse throws. -/
def errorMessage : String := "Translation error"

/-- Embedding of the start of `translateText`: `setStatus("translating")`. -/
def dispatchTranslate (s : TranscriberState) : TranscriberState :=
  { s with status := "translating" }

/-- Embedding of the rest of `translateText` applied when the response
arrives: `if (data.translated)` is JavaScript truthiness, so a present but
empty `translated` field takes the failure branch; a thrown error is caught
and publishes the `"Translation error"` placeholder. -/
def applyTranslateResponse (s : TranscriberState) (o : FetchOutcome) : TranscriberState :=
  match o with
  | .ok (some t) =>
      if t ≠ "" then { s with translated := t, status := "translated" }
      else { s with translated := quotaMessage, status := "error" }
  | .ok none => { s with translated := quotaMessage, status := "error" }
  | .fail => { s with translated := errorMessage, status := "error" }

/-- A platform recognition session object, reduced to its running flag. -/
structure Recog where
  running : Bool
  deriving Repr, DecidableEq

/-- Embedding of `rec.start()`: throws `InvalidStateError` when the session
is already running, otherwise the session becomes running. -/
def recStart (r : Recog) : Except String Recog :=
  if r.running then .error "InvalidStateError" else .ok { running := true }

/-- Embedding of `rec.abort()`: the session stops running. -/
def recAbort (_ : Recog) : Recog := { running := false }

/-- Embedding of `createRecognition(lang)`: a fresh, not-running session. -/
def createRecognitionRec : Recog := { running := false }

/-- The observable outcome of the start branch of `toggleListening`: the
recognition session objects that exist afterwards (the old one, possibly
aborted, and a recreated one when applicable) and the status value set by a
catch branch, if any. -/
structure ToggleOutcome where
  recs : List Recog
  statusSet : Option String
  deriving Repr, DecidableEq

/-- Embedding of the `!listening` branch of `toggleListening`: try
`r.start()`; on `InvalidStateError` abort the old session, recreate a fresh
one and start it, setting status `"error"` only if even that second start
throws; on any other error set status `"error"`. -/
def toggleStartBranch (r : Recog) : ToggleOutcome :=
  match recStart r with
  | .ok started => { recs := [started], statusSet := none }
  | .error errName =>
    if errName = "InvalidStateError" then
      let rAborted := recAbort r
      let fresh := createRecognitionRec
      match recStart fresh with
      | .ok freshStarted => { recs := [rAborted, freshStarted], statusSet := none }
      | .error _ => { recs := [rAborted, fresh], statusSet := some "error" }
    else
      { recs := [r], statusSet := some "error" }

/-- An available synthesis voice, reduced to the fields `speak` reads. -/
structure Voice where
  lang : String
  name : String
  deriving Repr, DecidableEq

/-- A call made to the speech-synthesis engine. -/
inductive SynthCall where
  | cancel
  | speakUtterance (text : String) (voiceName : Option String) (lang : String)
  deriving Repr, DecidableEq

/-- Embedding of `speak()`: returns the list of engine calls it performs.
`if (!translated) return` makes it exit with no calls when the translated
text is empty; otherwise a speaking engine is cancelled first and one
utterance is enqueued, with the first voice whose language tag is truthy and
starts with the output language, if any.  The function touches no React
state, which the signature makes structural. -/
def speakCalls (translated outputLang : String) (speaking : Bool)
    (voices : List Voice) : List SynthCall :=
  if translated = "" then []
  else
    (if speaking then [SynthCall.cancel] else []) ++
    [SynthCall.speakUtterance translated
      ((voices.find? (fun v => v.lang ≠ "" && jsStartsWith v.lang outputLang)).map
        (fun v => v.name))
      outputLang]

/-- Embedding of `clearAll()`: resets `original`, `translated` and
`lastResultRef.current` to the empty string. -/
def clearAll (s : TranscriberState) : TranscriberState :=
  { s with original := "", translated := "", lastResult := "" }

/-- A reply sent by the server route: a JSON body with a `translated` field,
or a JSON error body, each with its HTTP status code. -/
inductive ServerReply where
  | jsonTranslated (statusCode : Nat) (translated : String)
  | jsonError (statusCode : Nat) (error : String)
  deriving Repr, DecidableEq

/-- The outcome of the upstream chat-completions call, abstracted: the
content of `choices[0].message`, a body with no usable choice, or a thrown
fetch/parse failure. -/
inductive Upstream where
  | choiceContent (content : String)
  | noChoices
  | fetchFailure
  deriving Repr, DecidableEq

/-- Embedding of `app.post("/api/translate")`: `if (!text)` rejects a falsy
(empty) text with 400; with no `OPENAI_API_KEY` the route replies 200 with
the input text preceded by a notice; otherwise the upstream outcome decides
between 200 with the trimmed content and a 500 error body. -/
def translateRoute (key : Option String) (upstream : Upstream) (text : String) :
    ServerReply :=
  if text = "" then .jsonError 400 "text required"
  else
    match key with
    | none => .jsonTranslated 200 ("(OPENAI_API_KEY not set on server) " ++ text)
    | some _ =>
      match upstream with
      | .choiceContent c => .jsonTranslated 200 (jsTrim c)
      | .noChoices => .jsonError 500 "No translation result"
      | .fetchFailure => .jsonError 500 "server error"

/-- Claim C3: the recognition error taxonomy: kind `network` sets status
`network-error` and aborts the session (an abort call, not a stop call);
kind `not-allowed` sets status `permission-denied` and aborts; every other
kind sets the generic `error` status. -/
theorem onerror_status_taxonomy (s : TranscriberState) (e : String)
    (h1 : e ≠ "network") (h2 : e ≠ "not-allowed") :
    (onerrorStep s "network").1.status = "network-error" ∧
    (onerrorStep s "network").2 = some SessionOp.abortOp ∧
    (onerrorStep s "not-allowed").1.status = "permission-denied" ∧
    (onerrorStep s "not-allowed").2 = some SessionOp.abortOp ∧
    (onerrorStep s e).1.status = "error" := by
  refine ⟨?_, ?_, ?_, ?_, ?_⟩ <;> simp [onerrorStep, h1, h2]

/-- Witness for C3 at the concrete error kind `no-speech`. -/
theorem onerror_status_taxonomy_witness :
    (onerrorStep initState "no-speech").1.status = "error" :=
  (onerror_status_taxonomy initState "no-speech" (by decide) (by decide)).2.2.2.2

/-- Claim C4, counterexample: a session that was aborted with status
`permission-denied` has that status overwritten with `idle` by the
session-end handler, contradicting the claim that the end event does not
overwrite an error status. -/
theorem onend_overwrites_permission_denied :
    (onendStep { initState with status := "permission-denied" }).status = "idle" ∧
    ("idle" : String) ≠ "permission-denied" := by
  exact ⟨rfl, by decide⟩

/-- Claim C4, amended: the session-end handler clears the listening flag and
transitions status to `idle` unless the current status is exactly
`network-error`, which alone is preserved; `permission-denied` and `error`
are overwritten with `idle`. -/
theorem onend_preserves_only_network_error (s : TranscriberState) :
    (onendStep s).listening = false ∧
    (s.status = "network-error" → (onendStep s).status = "network-error") ∧
    (s.status ≠ "network-error" → (onendStep s).status = "idle") := by
  refine ⟨rfl, fun h => ?_, fun h => ?_⟩ <;> simp [onendStep, h]

/-- Witness for C4 at concrete states with status `network-error` and
`idle`. -/
theorem onend_preserves_only_network_error_witness :
    (onendStep { initState with status := "network-error" }).status = "network-error" ∧
    (onendStep initState).status = "idle" :=
  ⟨(onend_preserves_only_network_error { initState with status := "network-error" }).2.1 rfl,
   (onend_preserves_only_network_error initState).2.2 (by decide)⟩

/-- Claim C1, counterexample: two dispatches are in flight, the older one
for a stale pair whose upstream answer is `T-old`, the newer one for the
latest pair whose answer is `T-new`; the responses arrive out of dispatch
order (newest first).  `translateText` applies each response as it arrives,
with no tag or staleness check, so the stale response overwrites the result
already published for the latest pair: the final TranslationResult is
`T-old`, not `T-new`. -/
theorem stale_response_overwrites_newer :
    (applyTranslateResponse (dispatchTranslate initState)
        (.ok (some "T-new"))).translated = "T-new" ∧
    (applyTranslateResponse
        (applyTranslateResponse (dispatchTranslate initState) (.ok (some "T-new")))
        (.ok (some "T-old"))).translated = "T-old" ∧
    ("T-old" : String) ≠ "T-new" := by
  refine ⟨rfl, rfl, by decide⟩

/-- Claim C1, amended: responses are applied in arrival order with no
staleness check, so the published TranslationResult after both responses are
processed is the one whose response arrived last; the result for the latest
input pair survives exactly when the responses arrive in dispatch order
(stale response first). -/
theorem in_order_responses_publish_latest (s : TranscriberState)
    (a b : String) (hb : b ≠ "") :
    (applyTranslateResponse (applyTranslateResponse s (.ok (some a)))
        (.ok (some b))).translated = b ∧
    (applyTranslateResponse (applyTranslateResponse s (.ok (some a)))
        (.ok (some b))).status = "translated" := by
  constructor <;> simp [applyTranslateResponse, hb]

/-- Witness for C1 (amended) at concrete response texts. -/
theorem in_order_responses_publish_latest_witness :
    (applyTranslateResponse (applyTranslateResponse initState (.ok (some "T-old")))
        (.ok (some "T-new"))).translated = "T-new" :=
  (in_order_responses_publish_latest initState "T-old" "T-new" (by decide)).1

/-- Claim C2: the recognition handler rebuilds the whole transcript from the
closure-captured `original`, frozen at recognizer creation (the empty string
on mount), so a later event overwrites previously finalized text instead of
appending to it.  On the event sequence (final `a`), (final `b`) — two
utterances, each delivered once as a newly final result — the code leaves
the transcript `b`, while the concatenation of the final-event texts in
arrival order is `a b`: the finalized fragment `a` is lost, refuting the
append-only invariant that the code comment (`avoid duplicating text that
was already appended`) and the README (`live transcript accumulation`)
intend. -/
theorem onresult_loses_finalized_text :
    (processEvents "" initState
        [[{ isFinal := true, transcript := "a" }],
         [{ isFinal := true, transcript := "b" }]]).original = "b" ∧
    specFinalTranscript
        [[{ isFinal := true, transcript := "a" }],
         [{ isFinal := true, transcript := "b" }]] = "a b" ∧
    ("b" : String) ≠ "a b" := by
  refine ⟨by decide, by decide, by decide⟩

/-- Claim C6, counterexample: a response body that contains the `translated`
field with the empty-string value is not published as the TranslationResult:
`if (data.translated)` is JavaScript truthiness, so the code takes the
failure branch, publishes the quota placeholder and sets status `error`
rather than `translated`. -/
theorem empty_translated_field_not_published :
    (applyTranslateResponse initState (.ok (some ""))).status = "error" ∧
    (applyTranslateResponse initState (.ok (some ""))).translated = quotaMessage ∧
    quotaMessage ≠ "" ∧ ("error" : String) ≠ "translated" := by
  refine ⟨rfl, rfl, by decide, by decide⟩

/-- Claim C6, amended: if the response body contains a non-empty
`translated` field, the TranslationResult is set to it and status becomes
`translated`; if the field is absent or empty, the quota placeholder is
published with status `error`; if the transport throws, the caught error
publishes the `Translation error` placeholder with status `error` — the
dispatcher never lets the error propagate. -/
theorem translate_response_outcomes (s : TranscriberState) (t : String)
    (ht : t ≠ "") :
    ((applyTranslateResponse s (.ok (some t))).translated = t ∧
     (applyTranslateResponse s (.ok (some t))).status = "translated") ∧
    ((applyTranslateResponse s (.ok (some ""))).translated = quotaMessage ∧
     (applyTranslateResponse s (.ok (some ""))).status = "error") ∧
    ((applyTranslateResponse s (.ok none)).translated = quotaMessage ∧
     (applyTranslateResponse s (.ok none)).status = "error") ∧
    ((applyTranslateResponse s .fail).translated = errorMessage ∧
     (applyTranslateResponse s .fail).status = "error") := by
  refine ⟨⟨?_, ?_⟩, ⟨rfl, rfl⟩, ⟨rfl, rfl⟩, ⟨rfl, rfl⟩⟩ <;>
    simp [applyTranslateResponse, ht]

/-- Witness for C6 (amended) at the concrete translation of `chest pain`. -/
theorem translate_response_outcomes_witness :
    (applyTranslateResponse initState (.ok (some "dolor en el pecho"))).translated =
      "dolor en el pecho" :=
  (translate_response_outcomes initState "dolor en el pecho" (by decide)).1.1

/-- After a burst of changes, the armed timer holds exactly the last pair of
the burst: each change re-arms the timer, superseding the previous one. -/
theorem debounceBurst_last (changes : List (String × String)) :
    ∀ (s : DebounceState) (p : String × String),
      changes.getLast? = some p → (debounceBurst s changes).pending = some p := by
  induction changes with
  | nil => intro s p h; simp [List.getLast?] at h
  | cons x xs ih =>
    intro s p h
    cases xs with
    | nil =>
      have hx : x = p := by simpa [List.getLast?] using h
      subst hx; rfl
    | cons y ys =>
      have h' : (y :: ys).getLast? = some p := by
        rw [List.getLast?_cons_cons] at h; exact h
      exact ih (debounceChange s x.1 x.2) p h'

/-- Claim C5: for any burst of (transcript, output-language) changes within
the debounce window, the timer that finally fires dispatches exactly the
last pair observed — one dispatch when its transcript trims to a non-empty
string, and no dispatch at all when it is empty or whitespace-only; in
every case at most one dispatch occurs. -/
theorem debounce_dispatches_last_pair (s : DebounceState)
    (changes : List (String × String)) (p : String × String)
    (h : changes.getLast? = some p) :
    debounceFire (debounceBurst s changes) =
      (if (jsTrim p.1).length > 0 then [p] else []) ∧
    (debounceFire (debounceBurst s changes)).length ≤ 1 := by
  have hp := debounceBurst_last changes s p h
  have hfire : debounceFire (debounceBurst s changes) =
      (if (jsTrim p.1).length > 0 then [p] else []) := by
    unfold debounceFire; rw [hp]
  refine ⟨hfire, ?_⟩
  rw [hfire]
  split <;> simp

/-- Witness for C5: a burst of two changes dispatches exactly the last pair,
and a burst ending on a whitespace-only transcript dispatches nothing. -/
theorem debounce_dispatches_last_pair_witness :
    debounceFire (debounceBurst { pending := none }
        [("chest", "bn"), ("chest pain", "es")]) = [("chest pain", "es")] ∧
    debounceFire (debounceBurst { pending := none } [("  ", "es")]) = [] := by
  constructor
  · have h := debounce_dispatches_last_pair { pending := none }
      [("chest", "bn"), ("chest pain", "es")] ("chest pain", "es") (by decide)
    rw [h.1]; decide
  · have h := debounce_dispatches_last_pair { pending := none }
      [("  ", "es")] ("  ", "es") (by decide)
    rw [h.1]; decide

/-- Claim C7: calling start while the recognition session is already running
throws `InvalidStateError`, which the start branch of `toggleListening`
absorbs: the old session is aborted, a fresh one is created and started, no
catch branch sets an error status, and exactly one session is running
afterwards. -/
theorem toggle_start_absorbs_already_active (r : Recog) (h : r.running = true) :
    toggleStartBranch r =
      { recs := [{ running := false }, { running := true }], statusSet := none } ∧
    ((toggleStartBranch r).recs.countP (fun x => x.running)) = 1 ∧
    (toggleStartBranch r).statusSet = none := by
  cases r with
  | mk running => subst h; exact ⟨rfl, rfl, rfl⟩

/-- Witness for C7 at a concrete running session. -/
theorem toggle_start_absorbs_already_active_witness :
    ((toggleStartBranch { running := true }).recs.countP (fun x => x.running)) = 1 :=
  (toggle_start_absorbs_already_active { running := true } rfl).2.1

/-- Claim C8: with no `OPENAI_API_KEY` on the server, any request with a
non-empty `text` field gets a 200 reply whose `translated` field is the
input text preceded by the notice string, whatever the upstream collaborator
would have answered. -/
theorem translate_route_no_key_echoes_notice (upstream : Upstream)
    (text : String) (h : text ≠ "") :
    translateRoute none upstream text =
      .jsonTranslated 200 ("(OPENAI_API_KEY not set on server) " ++ text) := by
  simp [translateRoute, h]

/-- Witness for C8 at the concrete input `chest pain`. -/
theorem translate_route_no_key_echoes_notice_witness :
    translateRoute none Upstream.fetchFailure "chest pain" =
      .jsonTranslated 200 "(OPENAI_API_KEY not set on server) chest pain" :=
  translate_route_no_key_echoes_notice Upstream.fetchFailure "chest pain" (by decide)

/-- Claim C9: `speak()` with an empty translated text makes no synthesis
engine call at all, whatever the output language, the current speaking flag
and the available voices; it also touches no component state, which the
return type of `speakCalls` makes structural. -/
theorem speak_empty_translated_noop (outputLang : String) (speaking : Bool)
    (voices : List Voice) :
    speakCalls "" outputLang speaking voices = [] := by
  simp [speakCalls]

/-- Claim C10: `clearAll()` resets exactly `original`, `translated` and the
`lastResultRef` to empty, and leaves `status`, `listening`, `inputLang` and
`outputLang` unchanged. -/
theorem clearAll_frame (s : TranscriberState) :
    (clearAll s).original = "" ∧ (clearAll s).translated = "" ∧
    (clearAll s).lastResult = "" ∧ (clearAll s).status = s.status ∧
    (clearAll s).listening = s.listening ∧ (clearAll s).inputLang = s.inputLang ∧
    (clearAll s).outputLang = s.outputLang :=
  ⟨rfl, rfl, rfl, rfl, rfl, rfl, rfl⟩

end Healthcare
